import Mathlib

/-
  Shallow embedding of the alertmanager-gotify relay (src/index.ts and
  src/types/alert.ts): fingerprinting, the deduplication cache with its
  periodic cleanup sweep, per-alert notification dispatch, and the batch
  handler.  JavaScript string maps become association lists, JS falsy-or
  on strings becomes jsOr, timestamps are Nat milliseconds, and the
  network is an oracle telling whether a given outbound post succeeds.
-/

namespace AlertmanagerGotify

/-- An Alert as declared in src/types/alert.ts: a status string, label and
annotation string maps, and optional pass-through fields. -/
structure Alert where
  status : String
  labels : List (String × String)
  annotations : List (String × String)
  startsAt : Option String := none
  endsAt : Option String := none
  generatorURL : Option String := none
deriving DecidableEq

/-- JavaScript property access on a string map: the value bound to the key,
or none when the key is absent. -/
def lookupField (m : List (String × String)) (k : String) : Option String :=
  (m.find? (fun p => p.1 == k)).map (fun p => p.2)

/-- JavaScript falsy-or on an optionally-present string value, as in
the expression v or-else d: an absent value and the empty string are
both falsy and select the default. -/
def jsOr (x : Option String) (d : String) : String :=
  match x with
  | none => d
  | some v => if v = "" then d else v

/-- generateAlertId from src/index.ts: join alertname-or-empty,
instance-or-empty and the status with the separator bar. -/
def generateAlertId (alert : Alert) : String :=
  String.intercalate "|"
    [ jsOr (lookupField alert.labels "alertname") ""
    , jsOr (lookupField alert.labels "instance") ""
    , alert.status ]

/-- Body of the outbound Gotify post: title, message, priority. -/
structure GotifyMessage where
  title : String
  message : String
  priority : Nat
deriving DecidableEq

/-- DEFAULT_PRIORITY from src/index.ts. -/
def DEFAULT_PRIORITY : Nat := 5

/-- The payload built inside sendGotifyNotification in src/index.ts. -/
def formatGotifyMessage (alert : Alert) : GotifyMessage :=
  { title := if alert.status == "firing" then "🚨 New alert" else "✅ Resolved"
  , message :=
      jsOr (lookupField alert.labels "alertname") "Alert" ++ ": " ++
        jsOr (lookupField alert.annotations "description")
          (jsOr (lookupField alert.annotations "summary") "No description")
  , priority := if alert.status == "firing" then DEFAULT_PRIORITY else 1 }

/-- Reasons a per-alert dispatch task can reject: the Gotify URL is not
configured (the throw at the top of sendGotifyNotification), or the
outbound post itself failed. -/
inductive DispatchError where
  | configurationError
  | deliveryError
deriving DecidableEq

/-- Settlement of an asynchronous task: fulfilled, or rejected with an
error. -/
inductive Outcome where
  | ok
  | err (e : DispatchError)
deriving DecidableEq

/-- Effect trace of one sendGotifyNotification call: the outbound posts it
issued (destination URL and payload) and how the returned promise
settled. -/
structure DispatchResult where
  requests : List (String × GotifyMessage)
  outcome : Outcome
deriving DecidableEq

/-- sendGotifyNotification from src/index.ts.  gotifyUrl is the
GOTIFY_ALERT_URL environment value (absent or any string); the JS guard
rejects when it is undefined or empty, before any network call.
Otherwise one post is issued and the network oracle decides whether it
succeeds. -/
def sendGotifyNotification (gotifyUrl : Option String)
    (net : String → GotifyMessage → Bool) (alert : Alert) : DispatchResult :=
  match gotifyUrl with
  | none => { requests := [], outcome := .err .configurationError }
  | some u =>
      if u = "" then { requests := [], outcome := .err .configurationError }
      else
        let msg := formatGotifyMessage alert
        { requests := [(u, msg)]
        , outcome := if net u msg then .ok else .err .deliveryError }

/-- The sentAlerts map: fingerprint to last-seen timestamp (ms). -/
abbrev Cache := List (String × Nat)

/-- Map.has on the sentAlerts cache. -/
def cacheHas (c : Cache) (id : String) : Bool :=
  c.any (fun p => p.1 == id)

/-- Map.set on the sentAlerts cache: overwrite the existing binding, or
append a new one. -/
def cacheSet (c : Cache) (id : String) (t : Nat) : Cache :=
  if cacheHas c id then c.map (fun p => if p.1 == id then (id, t) else p)
  else c ++ [(id, t)]

/-- TTL_MINUTES from src/index.ts. -/
def TTL_MINUTES : Nat := 2

/-- The eviction threshold in milliseconds used by the cleanup job. -/
def ttlMs : Nat := TTL_MINUTES * 60 * 1000

/-- Result of one firing of the cleanup job: the surviving cache and, for
each removed entry, the logged eviction event carrying its fingerprint. -/
structure SweepResult where
  cache : Cache
  evicted : List String
deriving DecidableEq

/-- One firing of the scheduled job in setupAlertCleanupJob: delete every
entry whose age now minus timestamp has reached the TTL, logging each
removal. -/
def cleanupSweep (c : Cache) (now : Nat) : SweepResult :=
  { cache := c.filter (fun p => decide (now - p.2 < ttlMs))
  , evicted := (c.filter (fun p => decide (ttlMs ≤ now - p.2))).map (fun p => p.1) }

/-- Effect trace of one per-alert task inside processAlerts: the computed
fingerprint, and the dispatch it performed (none when the duplicate check
hit and the task returned early). -/
structure TaskResult where
  id : String
  dispatch : Option DispatchResult
deriving DecidableEq

/-- The synchronous prefix of one alert task in processAlerts: compute the
fingerprint, consult the cache, and either return early (duplicate) or run
sendGotifyNotification.  Every task's synchronous prefix runs against the
cache state c0 from before the batch, because in the JS runtime all map
callbacks execute up to their first suspension point before any task
resumes to record its fingerprint. -/
def runTask (gotifyUrl : Option String) (net : String → GotifyMessage → Bool)
    (c0 : Cache) (alert : Alert) : TaskResult :=
  let id := generateAlertId alert
  if cacheHas c0 id then { id := id, dispatch := none }
  else { id := id, dispatch := some (sendGotifyNotification gotifyUrl net alert) }

/-- The outbound posts a task issued. -/
def taskRequests (t : TaskResult) : List (String × GotifyMessage) :=
  match t.dispatch with
  | none => []
  | some r => r.requests

/-- How a task's promise settled: a duplicate skip fulfills, a dispatching
task settles like its sendGotifyNotification call. -/
def taskOutcome (t : TaskResult) : Outcome :=
  match t.dispatch with
  | none => .ok
  | some r => r.outcome

/-- The resumption phase of processAlerts: each task whose dispatch
resolved successfully records its fingerprint with the current time; a
rejected or skipped task records nothing.  Rejection of one task does not
stop the continuations of the others. -/
def recordPhase (now : Nat) : Cache → List TaskResult → Cache
  | c, [] => c
  | c, t :: rest =>
      match t.dispatch with
      | some r =>
          match r.outcome with
          | .ok => recordPhase now (cacheSet c t.id now) rest
          | .err _ => recordPhase now c rest
      | none => recordPhase now c rest

/-- Effect trace of one processAlerts call: the cache after the batch, all
outbound posts, and how the Promise.all settled. -/
structure ProcessResult where
  cache : Cache
  requests : List (String × GotifyMessage)
  outcome : Outcome
deriving DecidableEq

/-- Promise.all settlement over the per-task outcomes: fulfilled when all
fulfill, otherwise rejected with the first rejection. -/
def firstErr : List Outcome → Outcome
  | [] => .ok
  | .ok :: rest => firstErr rest
  | .err e :: _ => .err e

/-- processAlerts from src/index.ts on a batch, with now the timestamp
taken when fingerprints are recorded. -/
def processAlerts (gotifyUrl : Option String) (net : String → GotifyMessage → Bool)
    (c0 : Cache) (now : Nat) (alerts : List Alert) : ProcessResult :=
  let tasks := alerts.map (runTask gotifyUrl net c0)
  { cache := recordPhase now c0 tasks
  , requests := (tasks.map taskRequests).flatten
  , outcome := firstErr (tasks.map taskOutcome) }

/-- The alerts field of an inbound request body as the Array.isArray guard
in handleAlert sees it: absent (including an absent body), present but not
an array, or an array of alerts. -/
inductive AlertsField where
  | missing
  | notArray
  | array (alerts : List Alert)

/-- The value the guard in handleAlert accepts: some array, or none. -/
def AlertsField.asArray : AlertsField → Option (List Alert)
  | .array l => some l
  | _ => none

/-- The response handleAlert produces: a 400 with an error message, a 200
with a text body, or the catch branch forwarding the error to the Express
error-handling middleware (which yields a 5xx; the process keeps serving). -/
inductive HttpResponse where
  | badRequest (msg : String)
  | okText (body : String)
  | passedToErrorHandler (e : DispatchError)
deriving DecidableEq

/-- Effect trace of one handleAlert call: the response, the cache
afterwards, and all outbound posts. -/
structure HandleResult where
  response : HttpResponse
  cache : Cache
  requests : List (String × GotifyMessage)
deriving DecidableEq

/-- handleAlert from src/index.ts: reject non-array payloads with a 400
and touch nothing; otherwise run processAlerts and answer 200 on success,
or forward the first error on failure. -/
def handleAlert (gotifyUrl : Option String) (net : String → GotifyMessage → Bool)
    (c0 : Cache) (now : Nat) (body : AlertsField) : HandleResult :=
  match body.asArray with
  | none =>
      { response := .badRequest "Invalid payload: alerts missing or not an array"
      , cache := c0
      , requests := [] }
  | some alerts =>
      let r := processAlerts gotifyUrl net c0 now alerts
      match r.outcome with
      | .ok => { response := .okText "Alerts forwarded to Gotify", cache := r.cache, requests := r.requests }
      | .err e => { response := .passedToErrorHandler e, cache := r.cache, requests := r.requests }

/-- The first non-empty value among the optional candidates, else the
fallback: the precedence rule stated for the message body. -/
def firstNonEmpty : List (Option String) → String → String
  | [], fallback => fallback
  | c :: rest, fallback =>
      match c with
      | some v => if v = "" then firstNonEmpty rest fallback else v
      | none => firstNonEmpty rest fallback

lemma jsOr_empty_default (x : Option String) : jsOr x "" = x.getD "" := by
  cases x with
  | none => rfl
  | some v =>
      by_cases h : v = "" <;> simp [jsOr, h]

lemma jsOr_getD_ite (x : Option String) (d : String) :
    jsOr x d = if x.getD "" = "" then d else x.getD "" := by
  cases x with
  | none => simp [jsOr]
  | some v =>
      by_cases h : v = "" <;> simp [jsOr, h]

lemma intercalate_three (s a b c : String) :
    String.intercalate s [a, b, c] = a ++ s ++ b ++ s ++ c := by
  simp [String.intercalate, String.intercalate.go, String.append_assoc]

/-- Claim C4: the fingerprint is the fixed-order bar-joined concatenation
of alertname (empty if absent), instance (empty if absent) and status;
the all-empty alert fingerprints to two bars; the function is pure and
deterministic. -/
theorem claim_fingerprint_algorithm (a : Alert) :
    generateAlertId a =
      (lookupField a.labels "alertname").getD "" ++ "|" ++
        (lookupField a.labels "instance").getD "" ++ "|" ++ a.status
  ∧ generateAlertId { status := "", labels := [], annotations := [] } = "||"
  ∧ generateAlertId a = generateAlertId a := by
  refine ⟨?_, by decide, rfl⟩
  rw [generateAlertId, intercalate_three, jsOr_empty_default, jsOr_empty_default]

/-- Claim C5: two alerts that agree on labels.alertname, labels.instance
and status have identical fingerprints, whatever their annotations,
timestamps or other labels. -/
theorem claim_fingerprint_noninterference (a b : Alert)
    (h1 : lookupField a.labels "alertname" = lookupField b.labels "alertname")
    (h2 : lookupField a.labels "instance" = lookupField b.labels "instance")
    (h3 : a.status = b.status) :
    generateAlertId a = generateAlertId b := by
  rw [generateAlertId, generateAlertId, h1, h2, h3]

/-- Witness for C5: two alerts differing in annotations and timestamps
share their fingerprint. -/
theorem claim_fingerprint_noninterference_witness :
    generateAlertId
        { status := "firing"
        , labels := [("alertname", "A"), ("instance", "i"), ("severity", "high")]
        , annotations := [("description", "x")]
        , startsAt := some "2025-01-01T00:00:00Z" } =
      generateAlertId
        { status := "firing"
        , labels := [("alertname", "A"), ("instance", "i"), ("team", "ops")]
        , annotations := [("summary", "y")]
        , startsAt := some "2025-02-02T00:00:00Z" } :=
  claim_fingerprint_noninterference _ _ rfl rfl rfl

lemma jsOr_chain_firstNonEmpty (x y : Option String) (f : String) :
    jsOr x (jsOr y f) = firstNonEmpty [x, y] f := by
  cases x with
  | none =>
      cases y with
      | none => simp [jsOr, firstNonEmpty]
      | some w => by_cases hw : w = "" <;> simp [jsOr, firstNonEmpty, hw]
  | some v =>
      cases y with
      | none => by_cases hv : v = "" <;> simp [jsOr, firstNonEmpty, hv]
      | some w =>
          by_cases hv : v = "" <;> by_cases hw : w = "" <;>
            simp [jsOr, firstNonEmpty, hv, hw]

/-- Claim C6: the dispatched payload has the status-dependent title, a
message of alertname (defaulting to Alert when absent or empty) followed
by the first non-empty of description, summary and No description, and
priority 5 for firing alerts, 1 otherwise. -/
theorem claim_payload_formatting (a : Alert) :
    (formatGotifyMessage a).title =
      (if a.status = "firing" then "🚨 New alert" else "✅ Resolved")
  ∧ (formatGotifyMessage a).message =
      (if (lookupField a.labels "alertname").getD "" = "" then "Alert"
        else (lookupField a.labels "alertname").getD "") ++ ": " ++
        firstNonEmpty
          [lookupField a.annotations "description", lookupField a.annotations "summary"]
          "No description"
  ∧ (formatGotifyMessage a).priority = (if a.status = "firing" then 5 else 1) := by
  refine ⟨?_, ?_, ?_⟩
  · simp [formatGotifyMessage]
  · rw [formatGotifyMessage]
    rw [jsOr_chain_firstNonEmpty, jsOr_getD_ite]
  · simp [formatGotifyMessage, DEFAULT_PRIORITY]

lemma mem_cleanupSweep_cache (c : Cache) (now : Nat) (id : String) (t : Nat) :
    (id, t) ∈ (cleanupSweep c now).cache ↔ ((id, t) ∈ c ∧ now - t < ttlMs) := by
  simp [cleanupSweep, List.mem_filter]

lemma mem_cleanupSweep_evicted (c : Cache) (now : Nat) (id : String) :
    id ∈ (cleanupSweep c now).evicted ↔ ∃ t, (id, t) ∈ c ∧ ttlMs ≤ now - t := by
  simp only [cleanupSweep, List.mem_map, List.mem_filter, decide_eq_true_eq]
  constructor
  · rintro ⟨⟨k, t⟩, ⟨hm, hle⟩, hk⟩
    exact ⟨t, hk ▸ hm, hle⟩
  · rintro ⟨t, hm, hle⟩
    exact ⟨(id, t), ⟨hm, hle⟩, rfl⟩

lemma cleanupSweep_length (c : Cache) (now : Nat) :
    (cleanupSweep c now).cache.length + (cleanupSweep c now).evicted.length = c.length := by
  induction c with
  | nil => rfl
  | cons p rest ih =>
      by_cases h : now - p.2 < ttlMs
      · have h2 : ¬ ttlMs ≤ now - p.2 := Nat.not_le.mpr h
        simp [cleanupSweep, List.filter_cons, h, h2] at ih ⊢
        omega
      · have h2 : ttlMs ≤ now - p.2 := Nat.not_lt.mp h
        simp [cleanupSweep, List.filter_cons, h, h2] at ih ⊢
        omega

/-- Claim C3: a sweep at instant now removes exactly the entries whose age
has reached the 120000 ms TTL, leaves every younger entry with its
timestamp unchanged, emits one eviction event per removed entry, and in
particular an entry recorded at T survives a sweep at T plus 119 s, and
is removed by a sweep at T plus 120 s (the inclusive boundary) or
T plus 121 s. -/
theorem claim_sweep_correct (c : Cache) (now : Nat) :
    (∀ id t, (id, t) ∈ (cleanupSweep c now).cache ↔ ((id, t) ∈ c ∧ now - t < ttlMs))
  ∧ (∀ id, id ∈ (cleanupSweep c now).evicted ↔ ∃ t, (id, t) ∈ c ∧ ttlMs ≤ now - t)
  ∧ (cleanupSweep c now).cache.length + (cleanupSweep c now).evicted.length = c.length
  ∧ (∀ id T, (id, T) ∈ c →
      ((id, T) ∈ (cleanupSweep c (T + 119000)).cache
        ∧ (id, T) ∉ (cleanupSweep c (T + 120000)).cache
        ∧ (id, T) ∉ (cleanupSweep c (T + 121000)).cache)) := by
  refine ⟨mem_cleanupSweep_cache c now, mem_cleanupSweep_evicted c now,
    cleanupSweep_length c now, ?_⟩
  intro id T hm
  have hsub : ∀ k : Nat, T + k - T = k := fun k => by omega
  refine ⟨?_, ?_, ?_⟩
  · exact (mem_cleanupSweep_cache c _ id T).mpr ⟨hm, by rw [hsub]; norm_num [ttlMs, TTL_MINUTES]⟩
  · intro hc
    have := ((mem_cleanupSweep_cache c _ id T).mp hc).2
    rw [hsub] at this
    norm_num [ttlMs, TTL_MINUTES] at this
  · intro hc
    have := ((mem_cleanupSweep_cache c _ id T).mp hc).2
    rw [hsub] at this
    norm_num [ttlMs, TTL_MINUTES] at this

/-- Witness for C3 at a concrete cache: a sweep at 121000 keeps the entry
aged 21 s and evicts the one aged 121 s, logging its fingerprint. -/
theorem claim_sweep_correct_witness :
    ("b", 100000) ∈ (cleanupSweep [("a", 0), ("b", 100000)] 121000).cache
  ∧ "a" ∈ (cleanupSweep [("a", 0), ("b", 100000)] 121000).evicted :=
  ⟨((claim_sweep_correct [("a", 0), ("b", 100000)] 121000).1 "b" 100000).mpr
      ⟨by decide, by decide⟩,
   ((claim_sweep_correct [("a", 0), ("b", 100000)] 121000).2.1 "a").mpr
      ⟨0, by decide, by decide⟩⟩

lemma cacheHas_iff (c : Cache) (id : String) :
    cacheHas c id = true ↔ ∃ p ∈ c, p.1 = id := by
  simp [cacheHas, List.any_eq_true]

lemma cacheSet_of_not_has (c : Cache) (id : String) (t : Nat)
    (h : cacheHas c id = false) : cacheSet c id t = c ++ [(id, t)] := by
  simp [cacheSet, h]

lemma cacheHas_cacheSet_self (c : Cache) (id : String) (t : Nat) :
    cacheHas (cacheSet c id t) id = true := by
  by_cases h : cacheHas c id
  · rcases (cacheHas_iff c id).mp h with ⟨p, hp, hk⟩
    refine (cacheHas_iff _ id).mpr ⟨(id, t), ?_, rfl⟩
    simp only [cacheSet, h, if_true]
    exact List.mem_map.mpr ⟨p, hp, by simp [hk]⟩
  · rw [cacheSet, if_neg h]
    exact (cacheHas_iff _ id).mpr ⟨(id, t), by simp, rfl⟩

lemma cacheHas_cacheSet_other (c : Cache) (id id2 : String) (t : Nat)
    (h : cacheHas c id = true) : cacheHas (cacheSet c id2 t) id = true := by
  by_cases hid : id = id2
  · subst hid
    exact cacheHas_cacheSet_self c id t
  · rcases (cacheHas_iff c id).mp h with ⟨p, hp, hk⟩
    by_cases h2 : cacheHas c id2
    · refine (cacheHas_iff _ id).mpr ⟨p, ?_, hk⟩
      simp only [cacheSet, h2, if_true]
      refine List.mem_map.mpr ⟨p, hp, ?_⟩
      have : (p.1 == id2) = false := by
        simp [hk, hid]
      simp [this]
    · rw [cacheSet, if_neg h2]
      exact (cacheHas_iff _ id).mpr ⟨p, List.mem_append_left _ hp, hk⟩

lemma cacheHas_filter_false (c : Cache) (p : String × Nat → Bool) (id : String)
    (h : cacheHas c id = false) : cacheHas (c.filter p) id = false := by
  by_contra hc
  have hc2 : cacheHas (c.filter p) id = true := by
    revert hc
    cases cacheHas (c.filter p) id <;> simp
  rcases (cacheHas_iff _ id).mp hc2 with ⟨q, hq, hk⟩
  have : cacheHas c id = true :=
    (cacheHas_iff c id).mpr ⟨q, (List.mem_filter.mp hq).1, hk⟩
  rw [this] at h
  simp at h

lemma recordPhase_preserves (now : Nat) (ts : List TaskResult) (c : Cache) (id : String)
    (h : cacheHas c id = true) : cacheHas (recordPhase now c ts) id = true := by
  induction ts generalizing c with
  | nil => exact h
  | cons t rest ih =>
      cases hd : t.dispatch with
      | none =>
          rw [recordPhase, hd]
          exact ih c h
      | some r =>
          cases ho : r.outcome with
          | ok =>
              simp only [recordPhase, hd, ho]
              exact ih _ (cacheHas_cacheSet_other c id t.id now h)
          | err e =>
              simp only [recordPhase, hd, ho]
              exact ih c h

lemma recordPhase_records (now : Nat) (ts : List TaskResult) (c : Cache) (t : TaskResult)
    (ht : t ∈ ts) (r : DispatchResult) (hd : t.dispatch = some r) (ho : r.outcome = .ok) :
    cacheHas (recordPhase now c ts) t.id = true := by
  induction ts generalizing c with
  | nil => cases ht
  | cons u rest ih =>
      rcases List.mem_cons.mp ht with rfl | hmem
      · simp only [recordPhase, hd, ho]
        exact recordPhase_preserves now rest _ _ (cacheHas_cacheSet_self c t.id now)
      · cases hu : u.dispatch with
        | none =>
            rw [recordPhase, hu]
            exact ih c hmem
        | some q =>
            cases hq : q.outcome with
            | ok =>
                simp only [recordPhase, hu, hq]
                exact ih _ hmem
            | err e =>
                simp only [recordPhase, hu, hq]
                exact ih c hmem

lemma runTask_id (u : Option String) (net : String → GotifyMessage → Bool)
    (c : Cache) (a : Alert) : (runTask u net c a).id = generateAlertId a := by
  rw [runTask]
  split <;> rfl

lemma processAlerts_skip (u : Option String) (net : String → GotifyMessage → Bool)
    (c : Cache) (now : Nat) (a : Alert)
    (h : cacheHas c (generateAlertId a) = true) :
    processAlerts u net c now [a] = ⟨c, [], .ok⟩ := by
  simp [processAlerts, runTask, h, recordPhase, taskRequests, taskOutcome, firstErr]

lemma processAlerts_dispatch_ok (u : String) (net : String → GotifyMessage → Bool)
    (c : Cache) (now : Nat) (a : Alert)
    (hu : u ≠ "") (h : cacheHas c (generateAlertId a) = false)
    (hn : net u (formatGotifyMessage a) = true) :
    processAlerts (some u) net c now [a] =
      ⟨cacheSet c (generateAlertId a) now, [(u, formatGotifyMessage a)], .ok⟩ := by
  simp [processAlerts, runTask, h, sendGotifyNotification, hu, hn, recordPhase,
    taskRequests, taskOutcome, firstErr]

lemma processAlerts_dispatch_fail (u : Option String) (net : String → GotifyMessage → Bool)
    (c : Cache) (now : Nat) (a : Alert) (e : DispatchError)
    (h : cacheHas c (generateAlertId a) = false)
    (hs : (sendGotifyNotification u net a).outcome = .err e) :
    (processAlerts u net c now [a]).cache = c
  ∧ (processAlerts u net c now [a]).outcome = .err e
  ∧ (processAlerts u net c now [a]).requests = (sendGotifyNotification u net a).requests := by
  refine ⟨?_, ?_, ?_⟩ <;>
    simp [processAlerts, runTask, h, recordPhase, hs, taskRequests, taskOutcome, firstErr]

lemma firstErr_ok_iff (l : List Outcome) :
    firstErr l = .ok ↔ ∀ o ∈ l, o = .ok := by
  induction l with
  | nil => simp [firstErr]
  | cons o rest ih =>
      cases o with
      | ok => simp [firstErr, ih]
      | err e => simp [firstErr]

lemma firstErr_append_err (pre : List Outcome) (e : DispatchError) (post : List Outcome)
    (h : ∀ o ∈ pre, o = .ok) :
    firstErr (pre ++ .err e :: post) = .err e := by
  induction pre with
  | nil => simp [firstErr]
  | cons o rest ih =>
      have ho : o = .ok := h o (List.mem_cons_self o rest)
      subst ho
      rw [List.cons_append, firstErr]
      exact ih (fun o hm => h o (List.mem_cons_of_mem _ hm))

/-- Counterexample to C1 as stated: a firing alert whose dispatch is
attempted (one outbound post issued) and rejects with a DeliveryError
leaves the cache without its fingerprint — the code records the
fingerprint only after the await on sendGotifyNotification resolves, so
a failed delivery does not mark the alert as sent. -/
theorem claim_record_at_initiation_cex :
    (processAlerts (some "http://gotify.example") (fun _ _ => false) [] 1000
        [{ status := "firing", labels := [("alertname", "A"), ("instance", "i")],
           annotations := [] }]).requests.length = 1
  ∧ (processAlerts (some "http://gotify.example") (fun _ _ => false) [] 1000
        [{ status := "firing", labels := [("alertname", "A"), ("instance", "i")],
           annotations := [] }]).outcome = .err .deliveryError
  ∧ cacheHas
      (processAlerts (some "http://gotify.example") (fun _ _ => false) [] 1000
        [{ status := "firing", labels := [("alertname", "A"), ("instance", "i")],
           annotations := [] }]).cache
      (generateAlertId
        { status := "firing", labels := [("alertname", "A"), ("instance", "i")],
          annotations := [] }) = false
  ∧ (processAlerts (some "http://gotify.example") (fun _ _ => false) [] 1000
        [{ status := "firing", labels := [("alertname", "A"), ("instance", "i")],
           annotations := [] }]).cache = [] :=
  ⟨rfl, rfl, rfl, rfl⟩

/-- Claim C1 amended: the fingerprint is recorded at dispatch-success,
not dispatch-initiation — when sendGotifyNotification rejects, the cache
is unchanged, the fingerprint is absent, and a subsequent identical alert
within the TTL window is dispatched again rather than skipped. -/
theorem claim_record_only_on_success (u : Option String)
    (net : String → GotifyMessage → Bool) (c0 : Cache) (now : Nat) (a : Alert)
    (e : DispatchError)
    (h0 : cacheHas c0 (generateAlertId a) = false)
    (hfail : (sendGotifyNotification u net a).outcome = .err e) :
    (processAlerts u net c0 now [a]).cache = c0
  ∧ cacheHas (processAlerts u net c0 now [a]).cache (generateAlertId a) = false
  ∧ (runTask u net (processAlerts u net c0 now [a]).cache a).dispatch.isSome = true := by
  obtain ⟨hc, ho, hr⟩ := processAlerts_dispatch_fail u net c0 now a e h0 hfail
  refine ⟨hc, by rw [hc]; exact h0, ?_⟩
  rw [hc]
  simp [runTask, h0]

/-- Witness for the amended C1: with an unreachable Gotify server the
cache stays empty and the identical follow-up alert dispatches again. -/
theorem claim_record_only_on_success_witness :
    (processAlerts (some "http://gotify.example") (fun _ _ => false) [] 1000
        [{ status := "firing", labels := [("alertname", "B"), ("instance", "j")],
           annotations := [] }]).cache = ([] : Cache)
  ∧ (runTask (some "http://gotify.example") (fun _ _ => false)
        (processAlerts (some "http://gotify.example") (fun _ _ => false) [] 1000
          [{ status := "firing", labels := [("alertname", "B"), ("instance", "j")],
             annotations := [] }]).cache
        { status := "firing", labels := [("alertname", "B"), ("instance", "j")],
          annotations := [] }).dispatch.isSome = true :=
  ⟨(claim_record_only_on_success (some "http://gotify.example") (fun _ _ => false)
      [] 1000
      { status := "firing", labels := [("alertname", "B"), ("instance", "j")],
        annotations := [] }
      .deliveryError rfl rfl).1,
   (claim_record_only_on_success (some "http://gotify.example") (fun _ _ => false)
      [] 1000
      { status := "firing", labels := [("alertname", "B"), ("instance", "j")],
        annotations := [] }
      .deliveryError rfl rfl).2.2⟩

/-- Claim C2: an alert dispatched and recorded at T is skipped (no
outbound call, no cache mutation) while its fingerprint is in the map,
for example at T plus one minute; the skip consults map membership only,
so any cache containing the fingerprint — whatever the stored timestamp —
causes a skip; once a sweep at T plus three minutes has evicted the
entry, the same alert dispatches freshly and is recorded anew. -/
theorem claim_dedup_window (u : String) (net : String → GotifyMessage → Bool)
    (a : Alert) (c0 : Cache) (T : Nat)
    (hu : u ≠ "") (hnet : ∀ v m, net v m = true)
    (h0 : cacheHas c0 (generateAlertId a) = false) :
    processAlerts (some u) net c0 T [a]
      = ⟨cacheSet c0 (generateAlertId a) T, [(u, formatGotifyMessage a)], .ok⟩
  ∧ cacheHas (cacheSet c0 (generateAlertId a) T) (generateAlertId a) = true
  ∧ processAlerts (some u) net (cacheSet c0 (generateAlertId a) T) (T + 60000) [a]
      = ⟨cacheSet c0 (generateAlertId a) T, [], .ok⟩
  ∧ (∀ c1 t1, cacheHas c1 (generateAlertId a) = true →
        processAlerts (some u) net c1 t1 [a] = ⟨c1, [], .ok⟩)
  ∧ cacheHas (cleanupSweep (cacheSet c0 (generateAlertId a) T) (T + 180000)).cache
      (generateAlertId a) = false
  ∧ processAlerts (some u) net
        (cleanupSweep (cacheSet c0 (generateAlertId a) T) (T + 180000)).cache
        (T + 180000) [a]
      = ⟨cacheSet
            (cleanupSweep (cacheSet c0 (generateAlertId a) T) (T + 180000)).cache
            (generateAlertId a) (T + 180000),
          [(u, formatGotifyMessage a)], .ok⟩ := by
  have hmem : cacheHas (cacheSet c0 (generateAlertId a) T) (generateAlertId a) = true :=
    cacheHas_cacheSet_self c0 (generateAlertId a) T
  have hswept : cacheHas
      (cleanupSweep (cacheSet c0 (generateAlertId a) T) (T + 180000)).cache
      (generateAlertId a) = false := by
    rw [cacheSet_of_not_has c0 (generateAlertId a) T h0]
    have h180 : T + 180000 - T = 180000 := by omega
    have hcond : decide (T + 180000 - T < ttlMs) = false := by
      rw [h180]
      norm_num [ttlMs, TTL_MINUTES]
    simp only [cleanupSweep, List.filter_append, List.filter_cons, List.filter_nil,
      hcond, Bool.false_eq_true, if_false, List.append_nil]
    exact cacheHas_filter_false c0 _ _ h0
  refine ⟨processAlerts_dispatch_ok u net c0 T a hu h0 (hnet u (formatGotifyMessage a)),
    hmem,
    processAlerts_skip (some u) net _ (T + 60000) a hmem,
    fun c1 t1 h1 => processAlerts_skip (some u) net c1 t1 a h1,
    hswept,
    processAlerts_dispatch_ok u net _ (T + 180000) a hu hswept
      (hnet u (formatGotifyMessage a))⟩

/-- Witness for C2 at a concrete alert: the first batch dispatches and
records, and the identical batch one minute later is skipped without
touching the cache. -/
theorem claim_dedup_window_witness :
    processAlerts (some "http://gotify.example") (fun _ _ => true) [] 0
        [{ status := "firing", labels := [("alertname", "A"), ("instance", "i")],
           annotations := [] }]
      = ⟨cacheSet []
            (generateAlertId
              { status := "firing", labels := [("alertname", "A"), ("instance", "i")],
                annotations := [] }) 0,
          [("http://gotify.example",
            formatGotifyMessage
              { status := "firing", labels := [("alertname", "A"), ("instance", "i")],
                annotations := [] })], .ok⟩
  ∧ processAlerts (some "http://gotify.example") (fun _ _ => true)
        (cacheSet []
          (generateAlertId
            { status := "firing", labels := [("alertname", "A"), ("instance", "i")],
              annotations := [] }) 0) 60000
        [{ status := "firing", labels := [("alertname", "A"), ("instance", "i")],
           annotations := [] }]
      = ⟨cacheSet []
            (generateAlertId
              { status := "firing", labels := [("alertname", "A"), ("instance", "i")],
                annotations := [] }) 0, [], .ok⟩ :=
  ⟨(claim_dedup_window "http://gotify.example" (fun _ _ => true)
      { status := "firing", labels := [("alertname", "A"), ("instance", "i")],
        annotations := [] }
      [] 0 (by decide) (fun _ _ => rfl) rfl).1,
   (claim_dedup_window "http://gotify.example" (fun _ _ => true)
      { status := "firing", labels := [("alertname", "A"), ("instance", "i")],
        annotations := [] }
      [] 0 (by decide) (fun _ _ => rfl) rfl).2.2.1⟩

/-- Claim C7: a payload whose alerts field is missing or not an array is
answered with a 400 carrying exactly the literal error message, with no
dispatch and an unchanged cache; a payload with an alerts array that
processes without error is answered 200 with the literal success body. -/
theorem claim_batch_validation (u : Option String) (net : String → GotifyMessage → Bool)
    (c0 : Cache) (now : Nat) :
    (∀ body, body.asArray = none →
        handleAlert u net c0 now body =
          ⟨.badRequest "Invalid payload: alerts missing or not an array", c0, []⟩)
  ∧ AlertsField.missing.asArray = none
  ∧ AlertsField.notArray.asArray = none
  ∧ (∀ alerts, (processAlerts u net c0 now alerts).outcome = .ok →
        handleAlert u net c0 now (.array alerts)
          = ⟨.okText "Alerts forwarded to Gotify",
              (processAlerts u net c0 now alerts).cache,
              (processAlerts u net c0 now alerts).requests⟩) := by
  refine ⟨?_, rfl, rfl, ?_⟩
  · intro body hb
    simp [handleAlert, hb]
  · intro alerts ho
    simp [handleAlert, AlertsField.asArray, ho]

/-- Witness for C7: the missing-alerts payload is rejected with the exact
message and an empty unchanged cache, and the empty batch is answered
with the success body. -/
theorem claim_batch_validation_witness :
    handleAlert (some "http://gotify.example") (fun _ _ => true) [] 0 .missing
      = ⟨.badRequest "Invalid payload: alerts missing or not an array", [], []⟩
  ∧ handleAlert (some "http://gotify.example") (fun _ _ => true) [] 0 (.array [])
      = ⟨.okText "Alerts forwarded to Gotify",
          (processAlerts (some "http://gotify.example") (fun _ _ => true) [] 0 []).cache,
          (processAlerts (some "http://gotify.example") (fun _ _ => true) [] 0 []).requests⟩ :=
  ⟨(claim_batch_validation (some "http://gotify.example") (fun _ _ => true) [] 0).1
      .missing rfl,
   (claim_batch_validation (some "http://gotify.example") (fun _ _ => true) [] 0).2.2.2
      [] rfl⟩

/-- Claim C8: with no Gotify URL configured (unset or empty), a dispatch
fails with a ConfigurationError before any network request is issued, the
error propagates through the batch to the handler, and the handler still
returns (the error goes to the error-handling middleware; the process
keeps serving). -/
theorem claim_config_error (gotifyUrl : Option String)
    (net : String → GotifyMessage → Bool) (a : Alert)
    (hu : gotifyUrl = none ∨ gotifyUrl = some "") :
    sendGotifyNotification gotifyUrl net a = ⟨[], .err .configurationError⟩
  ∧ (∀ c0 now, cacheHas c0 (generateAlertId a) = false →
        (processAlerts gotifyUrl net c0 now [a]).requests = []
      ∧ (processAlerts gotifyUrl net c0 now [a]).outcome = .err .configurationError
      ∧ (processAlerts gotifyUrl net c0 now [a]).cache = c0
      ∧ (handleAlert gotifyUrl net c0 now (.array [a])).response
          = .passedToErrorHandler .configurationError) := by
  have hsend : sendGotifyNotification gotifyUrl net a = ⟨[], .err .configurationError⟩ := by
    rcases hu with rfl | rfl
    · rfl
    · simp [sendGotifyNotification]
  refine ⟨hsend, ?_⟩
  intro c0 now h0
  obtain ⟨hc, ho, hr⟩ :=
    processAlerts_dispatch_fail gotifyUrl net c0 now a .configurationError h0
      (by rw [hsend])
  exact ⟨by rw [hr, hsend], ho, hc, by simp [handleAlert, AlertsField.asArray, ho]⟩

/-- Witness for C8: with the URL unset, the batch of one alert issues no
request, rejects with the ConfigurationError, and the handler forwards it. -/
theorem claim_config_error_witness :
    (processAlerts none (fun _ _ => true) [] 0
        [{ status := "firing", labels := [("alertname", "C"), ("instance", "k")],
           annotations := [] }]).requests = []
  ∧ (handleAlert none (fun _ _ => true) [] 0
        (.array
          [{ status := "firing", labels := [("alertname", "C"), ("instance", "k")],
             annotations := [] }])).response
      = .passedToErrorHandler .configurationError :=
  ⟨((claim_config_error none (fun _ _ => true)
      { status := "firing", labels := [("alertname", "C"), ("instance", "k")],
        annotations := [] }
      (Or.inl rfl)).2 [] 0 rfl).1,
   ((claim_config_error none (fun _ _ => true)
      { status := "firing", labels := [("alertname", "C"), ("instance", "k")],
        annotations := [] }
      (Or.inl rfl)).2 [] 0 rfl).2.2.2⟩

/-- Claim C9: the batch fulfills exactly when every per-alert task
fulfills; if a task rejects, the batch rejects with the first error in
task order; and tasks are independent — each task's outbound requests
depend only on itself and the pre-batch cache, and a successfully
dispatched alert is recorded even when another task in the batch fails. -/
theorem claim_batch_aggregation (u : Option String) (net : String → GotifyMessage → Bool)
    (c0 : Cache) (now : Nat) (alerts : List Alert) :
    ((processAlerts u net c0 now alerts).outcome = .ok ↔
        ∀ a ∈ alerts, taskOutcome (runTask u net c0 a) = .ok)
  ∧ (∀ pre a post e, alerts = pre ++ a :: post →
        (∀ b ∈ pre, taskOutcome (runTask u net c0 b) = .ok) →
        taskOutcome (runTask u net c0 a) = .err e →
        (processAlerts u net c0 now alerts).outcome = .err e)
  ∧ ((processAlerts u net c0 now alerts).requests
        = (alerts.map (fun x => taskRequests (runTask u net c0 x))).flatten)
  ∧ (∀ a ∈ alerts, ∀ r, (runTask u net c0 a).dispatch = some r → r.outcome = .ok →
        cacheHas (processAlerts u net c0 now alerts).cache (generateAlertId a) = true) := by
  have houtcome : (processAlerts u net c0 now alerts).outcome
      = firstErr ((alerts.map (runTask u net c0)).map taskOutcome) := rfl
  have hreq : (processAlerts u net c0 now alerts).requests
      = ((alerts.map (runTask u net c0)).map taskRequests).flatten := rfl
  have hcache : (processAlerts u net c0 now alerts).cache
      = recordPhase now c0 (alerts.map (runTask u net c0)) := rfl
  refine ⟨?_, ?_, ?_, ?_⟩
  · rw [houtcome, firstErr_ok_iff]
    simp [List.map_map]
  · intro pre a post e hsplit hpre ha
    subst hsplit
    rw [houtcome, List.map_append, List.map_cons, List.map_append, List.map_cons, ha]
    refine firstErr_append_err _ e _ ?_
    intro o ho
    rcases List.mem_map.mp ho with ⟨t, ht, rfl⟩
    rcases List.mem_map.mp ht with ⟨b, hb, rfl⟩
    exact hpre b hb
  · rw [hreq, List.map_map]
    rfl
  · intro a ha r hd ho
    have hrec := recordPhase_records now (alerts.map (runTask u net c0)) c0
      (runTask u net c0 a) (List.mem_map_of_mem _ ha) r hd ho
    rw [runTask_id] at hrec
    rw [hcache]
    exact hrec

/-- Witness for C9: with the URL unset, a one-alert batch rejects with the
first (and only) task's ConfigurationError. -/
theorem claim_batch_aggregation_witness :
    (processAlerts none (fun _ _ => true) [] 0
        [{ status := "firing", labels := [], annotations := [] }]).outcome
      = .err .configurationError :=
  (claim_batch_aggregation none (fun _ _ => true) [] 0
      ([] ++ { status := "firing", labels := [], annotations := [] } :: [])).2.1
    [] { status := "firing", labels := [], annotations := [] } [] .configurationError
    rfl (fun b hb => absurd hb (List.not_mem_nil b)) rfl

lemma taskRequests_runTask_hit (u : Option String) (net : String → GotifyMessage → Bool)
    (c0 : Cache) (a : Alert)
    (h : cacheHas c0 (generateAlertId a) = true) :
    taskRequests (runTask u net c0 a) = [] := by
  simp [runTask, h, taskRequests]

lemma taskRequests_runTask_miss (u : String) (net : String → GotifyMessage → Bool)
    (c0 : Cache) (a : Alert)
    (hu : u ≠ "") (h : cacheHas c0 (generateAlertId a) = false) :
    taskRequests (runTask (some u) net c0 a) = [(u, formatGotifyMessage a)] := by
  simp [runTask, h, taskRequests, sendGotifyNotification, hu]

lemma processAlerts_requests_count (u : String) (net : String → GotifyMessage → Bool)
    (c0 : Cache) (now : Nat) (alerts : List Alert) (hu : u ≠ "") :
    (processAlerts (some u) net c0 now alerts).requests.length
      = (alerts.filter (fun x => ! cacheHas c0 (generateAlertId x))).length := by
  induction alerts with
  | nil => rfl
  | cons a rest ih =>
      have hstep : (processAlerts (some u) net c0 now (a :: rest)).requests
          = taskRequests (runTask (some u) net c0 a)
            ++ (processAlerts (some u) net c0 now rest).requests := by
        simp [processAlerts]
      rw [hstep, List.length_append, ih, List.filter_cons]
      by_cases h : cacheHas c0 (generateAlertId a) = true
      · simp [taskRequests_runTask_hit (some u) net c0 a h, h]
      · have hf : cacheHas c0 (generateAlertId a) = false := by
          revert h
          cases cacheHas c0 (generateAlertId a) <;> simp
        simp [taskRequests_runTask_miss u net c0 a hu hf, hf]
        omega

/-- Claim C10: two alerts with the same fingerprint in one batch, the
fingerprint not yet cached, are both dispatched — both membership checks
run against the pre-batch cache before any task records — and in general
a batch issues one outbound request per alert whose fingerprint is absent
from the pre-batch cache. -/
theorem claim_within_batch_duplicates (u : String) (net : String → GotifyMessage → Bool)
    (c0 : Cache) (now : Nat) (a b : Alert)
    (hu : u ≠ "")
    (hid : generateAlertId b = generateAlertId a)
    (h0 : cacheHas c0 (generateAlertId a) = false) :
    (processAlerts (some u) net c0 now [a, b]).requests
      = [(u, formatGotifyMessage a), (u, formatGotifyMessage b)]
  ∧ (∀ batch : List Alert,
        (processAlerts (some u) net c0 now batch).requests.length
          = (batch.filter (fun x => ! cacheHas c0 (generateAlertId x))).length) := by
  have hb0 : cacheHas c0 (generateAlertId b) = false := by
    rw [hid]
    exact h0
  refine ⟨?_, fun batch => processAlerts_requests_count u net c0 now batch hu⟩
  have h1 := taskRequests_runTask_miss u net c0 a hu h0
  have h2 := taskRequests_runTask_miss u net c0 b hu hb0
  show (([a, b].map (runTask (some u) net c0)).map taskRequests).flatten = _
  simp [h1, h2]

/-- Witness for C10: two alerts sharing alertname, instance and status but
with different annotations both produce an outbound request in one batch. -/
theorem claim_within_batch_duplicates_witness :
    (processAlerts (some "http://gotify.example") (fun _ _ => true) [] 0
        [ { status := "firing", labels := [("alertname", "A"), ("instance", "i")],
            annotations := [("description", "first")] }
        , { status := "firing", labels := [("alertname", "A"), ("instance", "i")],
            annotations := [("description", "second")] } ]).requests
      = [ ("http://gotify.example",
            formatGotifyMessage
              { status := "firing", labels := [("alertname", "A"), ("instance", "i")],
                annotations := [("description", "first")] })
        , ("http://gotify.example",
            formatGotifyMessage
              { status := "firing", labels := [("alertname", "A"), ("instance", "i")],
                annotations := [("description", "second")] }) ] :=
  (claim_within_batch_duplicates "http://gotify.example" (fun _ _ => true) [] 0
      { status := "firing", labels := [("alertname", "A"), ("instance", "i")],
        annotations := [("description", "first")] }
      { status := "firing", labels := [("alertname", "A"), ("instance", "i")],
        annotations := [("description", "second")] }
      (by decide) rfl rfl).1

end AlertmanagerGotify
